import Mathlib

/-!
Shallow embedding of the quest-bot workflow engine (src/bot.py): the ledger
store tables created by init_db, the points helpers, the milestone function,
the submission-intake checks of the task button callback, the review-pipeline
handlers and the withdrawal negotiation, together with theorems settling the
specification claims about them.  Timestamps are modelled as integers
(seconds); the volatile cooldown dictionary is a partial map.
-/

namespace QuestBot

/-- A row of the submissions table. -/
structure Submission where
  id : Nat
  user_id : Nat
  task_id : Nat
  proof : String
  status : String
  reviewed_at : Option Int
deriving DecidableEq

/-- A row of the tasks table (the fields the claims touch; archived is the
SQL INTEGER 0/1 flag, as in the schema). -/
structure Task where
  id : Nat
  title : String
  points : Int
  max_submissions : Int
  archived : Nat
deriving DecidableEq

/-- A row of the withdrawals table. -/
structure Withdrawal where
  id : Nat
  user_id : Nat
  bank_name : String
  account_number : String
  account_name : String
  points : Int
  status : String
deriving DecidableEq

/-- The durable store: the five tables of init_db (users as
(user_id, points) pairs, banned_users as a list of ids) plus the SERIAL
counters that generate submission and withdrawal ids. -/
structure DBState where
  users : List (Nat × Int)
  tasks : List Task
  submissions : List Submission
  withdrawals : List Withdrawal
  banned : List Nat
  next_sub_id : Nat
  next_wd_id : Nat
deriving DecidableEq

/-- get_user_points: SELECT points FROM users WHERE user_id=$1; the helper
returns row['points'] if a row exists and 0 otherwise. -/
def get_user_points (db : DBState) (uid : Nat) : Int :=
  match db.users.find? (fun p => p.1 == uid) with
  | some p => p.2
  | none => 0

/-- is_banned: SELECT 1 FROM banned_users WHERE user_id=$1. -/
def is_banned (db : DBState) (uid : Nat) : Bool :=
  db.banned.any (fun b => b == uid)

/-- ensure_user: INSERT INTO users (user_id, points) VALUES ($1, 0)
ON CONFLICT (user_id) DO NOTHING. -/
def ensure_user (db : DBState) (uid : Nat) : DBState :=
  if db.users.any (fun p => p.1 == uid) then db
  else { db with users := db.users ++ [(uid, 0)] }

/-- next_milestones_reached: [m for m in milestones if old_pts < m <= new_pts]. -/
def next_milestones_reached (old_pts new_pts : Int) (milestones : List Int) : List Int :=
  milestones.filter (fun m => old_pts < m && m ≤ new_pts)

/-- SELECT COUNT(*) FROM submissions WHERE task_id=$1 AND status!='rejected'. -/
def countNonRejected (db : DBState) (tid : Nat) : Nat :=
  (db.submissions.filter (fun s => s.task_id == tid && s.status != "rejected")).length

/-- SELECT id, status FROM submissions WHERE user_id=$1 AND task_id=$2 (fetchrow). -/
def findSubmission (db : DBState) (uid tid : Nat) : Option Submission :=
  db.submissions.find? (fun s => s.user_id == uid && s.task_id == tid)

/-- Status of the submission row with the given id, if any. -/
def submission_status (db : DBState) (sid : Nat) : Option String :=
  (db.submissions.find? (fun s => s.id == sid)).map (fun s => s.status)

/-- UPDATE tasks SET archived=1 WHERE id=$1. -/
def archiveTask (db : DBState) (tid : Nat) : DBState :=
  { db with tasks := db.tasks.map (fun t =>
      if t.id == tid then { t with archived := 1 } else t) }

/-- The row captured by the review select callback:
SELECT s.*, t.points AS task_points FROM submissions s JOIN tasks t ... WHERE s.id=$1,
refused ("no longer pending") unless the submission is still pending.  The
approve/reject buttons close over this captured row. -/
structure ReviewRow where
  sid : Nat
  user_id : Nat
  task_id : Nat
  task_points : Int
deriving DecidableEq

/-- The PendingSelect callback's load-and-check: the only place the pipeline
re-reads status, returning none ("Submission is no longer pending or not
found") when the row is absent, not pending, or the join finds no task. -/
def selectForReview (db : DBState) (sid : Nat) : Option ReviewRow :=
  match db.submissions.find? (fun s => s.id == sid) with
  | none => none
  | some s =>
    if s.status != "pending" then none
    else
      match db.tasks.find? (fun t => t.id == s.task_id) with
      | none => none
      | some t =>
        some { sid := sid, user_id := s.user_id, task_id := s.task_id, task_points := t.points }

/-- First statement of approve_cb:
UPDATE submissions SET status='approved', reviewed_at=CURRENT_TIMESTAMP WHERE id=$1. -/
def approve_stmt1 (db : DBState) (sid : Nat) (now : Int) : DBState :=
  { db with submissions := db.submissions.map (fun s =>
      if s.id == sid then { s with status := "approved", reviewed_at := some now } else s) }

/-- Second statement of approve_cb:
UPDATE users SET points = points + $1 WHERE user_id=$2. -/
def approve_stmt2 (db : DBState) (uid : Nat) (amount : Int) : DBState :=
  { db with users := db.users.map (fun p =>
      if p.1 == uid then (p.1, p.2 + amount) else p) }

/-- approve_cb: runs the two UPDATEs with the row data captured at select
time; neither statement re-reads or guards on the current status. -/
def approve_cb (db : DBState) (r : ReviewRow) (now : Int) : DBState :=
  approve_stmt2 (approve_stmt1 db r.sid now) r.user_id r.task_points

/-- The two UPDATEs of approve_cb are issued as independent autocommitted
executes on an acquired connection (there is no transaction block), so each
commits on its own; k counts how many of the two had committed when the
execution was interrupted (k = 2 is the uninterrupted run). -/
def approve_cb_committed (db : DBState) (r : ReviewRow) (now : Int) (k : Nat) : DBState :=
  if k = 0 then db
  else if k = 1 then approve_stmt1 db r.sid now
  else approve_cb db r now

/-- reject_cb:
UPDATE submissions SET status='rejected', reviewed_at=CURRENT_TIMESTAMP WHERE id=$1. -/
def reject_cb (db : DBState) (r : ReviewRow) (now : Int) : DBState :=
  { db with submissions := db.submissions.map (fun s =>
      if s.id == r.sid then { s with status := "rejected", reviewed_at := some now } else s) }

/-- Outcome of int(details['points']) in withdraw_cb, plus the possibility
that the wait_for for the amount message timed out before parsing. -/
inductive AmountInput
  | timeout
  | unparseable
  | value (n : Int)
deriving DecidableEq

/-- Observable outcome of one run of withdraw_cb. -/
inductive WdOutcome
  | notEligible
  | timedOut
  | invalidNumber
  | belowMinimum
  | overBalance
  | committed (wid : Nat) (newBalance : Int)
deriving DecidableEq

/-- UPDATE users SET points = points - $1 WHERE user_id=$2. -/
def debit_points (db : DBState) (uid : Nat) (amount : Int) : DBState :=
  { db with users := db.users.map (fun p =>
      if p.1 == uid then (p.1, p.2 - amount) else p) }

/-- withdraw_cb: eligibility check against the balance read once at entry,
four sequential wait_for collections (each Option String / AmountInput is one
wait outcome, none or timeout meaning the 60s timeout fired), validation of
the amount, then the debit and the withdrawals INSERT.  Control flow follows
the source: any timeout or failed validation returns before any write. -/
def withdraw_cb (db : DBState) (uid : Nat) (bank acct_num acct_name : Option String)
    (amount : AmountInput) : DBState × WdOutcome :=
  let current_points := get_user_points db uid
  if current_points < 1000 then (db, WdOutcome.notEligible)
  else
    match bank with
    | none => (db, WdOutcome.timedOut)
    | some bank_name =>
      match acct_num with
      | none => (db, WdOutcome.timedOut)
      | some account_number =>
        match acct_name with
        | none => (db, WdOutcome.timedOut)
        | some account_name =>
          match amount with
          | AmountInput.timeout => (db, WdOutcome.timedOut)
          | AmountInput.unparseable => (db, WdOutcome.invalidNumber)
          | AmountInput.value p =>
            if p ≤ 0 then (db, WdOutcome.invalidNumber)
            else if p < 1000 then (db, WdOutcome.belowMinimum)
            else if p > current_points then (db, WdOutcome.overBalance)
            else
              let db1 := debit_points db uid p
              let wid := db1.next_wd_id
              let db2 : DBState :=
                { db1 with
                  withdrawals := db1.withdrawals ++
                    [{ id := wid, user_id := uid, bank_name := bank_name,
                       account_number := account_number, account_name := account_name,
                       points := p, status := "pending" }],
                  next_wd_id := wid + 1 }
              (db2, WdOutcome.committed wid (current_points - p))

/-- BUTTON_COOLDOWN = 10 seconds. -/
def BUTTON_COOLDOWN : Int := 10

/-- The volatile process-local last_click dictionary, keyed by
(user id, task id). -/
def CooldownMap : Type := Nat × Nat → Option Int

/-- The empty dictionary. -/
def emptyClicks : CooldownMap := fun _ => none

/-- Dictionary assignment last_click[key] = now. -/
def setClick (m : CooldownMap) (key : Nat × Nat) (now : Int) : CooldownMap :=
  fun k => if k = key then some now else m k

/-- Outcome of the cooldown gate. -/
inductive GateResult
  | denied (remaining : Int)
  | passed
deriving DecidableEq

/-- The cooldown gate of task_cb: read last_click.get(key); if the click is
inside the window, deny with the remaining seconds and leave the map
untouched; otherwise record now.  The read and the write happen with no await
between them, so the whole gate is one atomic step of the cooperative
scheduler. -/
def cooldown_gate (m : CooldownMap) (uid tid : Nat) (now : Int) : GateResult × CooldownMap :=
  match m (uid, tid) with
  | some last =>
    if now - last < BUTTON_COOLDOWN then
      (GateResult.denied (BUTTON_COOLDOWN - (now - last)), m)
    else (GateResult.passed, setClick m (uid, tid) now)
  | none => (GateResult.passed, setClick m (uid, tid) now)

/-- Result of the check phase of task_cb. -/
inductive IntakeCheck
  | wrongAuthor
  | bannedUser
  | onCooldown (remaining : Int)
  | questFull
  | alreadySubmitted (st : String)
  | proceed (done_count : Nat)
deriving DecidableEq

/-- Store, cooldown map and decision after the check phase. -/
structure IntakeAResult where
  db : DBState
  clicks : CooldownMap
  result : IntakeCheck

/-- task_cb from dispatch up to the proof wait: author check, ban check,
cooldown gate, click-time capacity check (which archives the task when full),
duplicate check.  max_subs is the value the button closure captured at board
render time, exactly as in the source. -/
def task_cb_checks (db : DBState) (clicks : CooldownMap) (ctx_author uid tid : Nat)
    (max_subs now : Int) : IntakeAResult :=
  if uid ≠ ctx_author then ⟨db, clicks, IntakeCheck.wrongAuthor⟩
  else if is_banned db uid then ⟨db, clicks, IntakeCheck.bannedUser⟩
  else
    match cooldown_gate clicks uid tid now with
    | (GateResult.denied r, clicks2) => ⟨db, clicks2, IntakeCheck.onCooldown r⟩
    | (GateResult.passed, clicks2) =>
      if (countNonRejected db tid : Int) ≥ max_subs then
        ⟨archiveTask db tid, clicks2, IntakeCheck.questFull⟩
      else
        match findSubmission db uid tid with
        | some s => ⟨db, clicks2, IntakeCheck.alreadySubmitted s.status⟩
        | none => ⟨db, clicks2, IntakeCheck.proceed (countNonRejected db tid)⟩

/-- task_cb after a proof message arrived: ensure_user, then
INSERT INTO submissions (user_id, task_id, proof) — status defaults to
'pending'.  No check is repeated here. -/
def task_cb_record (db : DBState) (uid tid : Nat) (proofMsg : String) : DBState :=
  let db1 := ensure_user db uid
  { db1 with
    submissions := db1.submissions ++
      [{ id := db1.next_sub_id, user_id := uid, task_id := tid,
         proof := proofMsg, status := "pending", reviewed_at := none }],
    next_sub_id := db1.next_sub_id + 1 }

/-- The archiving pass of refresh_task_board: over the first ten fetched open
tasks, archive every task whose non-rejected count reached its (re-fetched)
max_submissions. -/
def refresh_archive (db : DBState) : DBState :=
  let toArchive := ((db.tasks.filter (fun t => t.archived == 0)).take 10).filter
    (fun t => (countNonRejected db t.id : Int) ≥ t.max_submissions)
  { db with tasks := db.tasks.map (fun t =>
      if toArchive.any (fun x => x.id == t.id) then { t with archived := 1 } else t) }

/-- The remainder of task_cb after the check phase: a timed-out proof wait
aborts with no write; a received proof is recorded and the board refreshed;
the full-quest denial refreshes the board after archiving; every other denial
leaves the store as the checks left it. -/
def taskFlowFinish (a : IntakeAResult) (uid tid : Nat) (proofMsg : Option String) :
    DBState × CooldownMap :=
  match a.result, proofMsg with
  | IntakeCheck.proceed _, some p =>
    (refresh_archive (task_cb_record a.db uid tid p), a.clicks)
  | IntakeCheck.proceed _, none => (a.db, a.clicks)
  | IntakeCheck.questFull, _ => (refresh_archive a.db, a.clicks)
  | IntakeCheck.wrongAuthor, _ => (a.db, a.clicks)
  | IntakeCheck.bannedUser, _ => (a.db, a.clicks)
  | IntakeCheck.onCooldown _, _ => (a.db, a.clicks)
  | IntakeCheck.alreadySubmitted _, _ => (a.db, a.clicks)

/-- One uninterleaved (serial) run of task_cb: the check phase immediately
followed by its continuation, with proofMsg the outcome of the proof wait
(none = the 180 s timeout fired). -/
def task_cb_serial (db : DBState) (clicks : CooldownMap) (ctx_author uid tid : Nat)
    (max_subs now : Int) (proofMsg : Option String) : DBState × CooldownMap :=
  taskFlowFinish (task_cb_checks db clicks ctx_author uid tid max_subs now) uid tid proofMsg

/-- Number of submission rows for one (user, task) pair. -/
def pairSubmissionCount (db : DBState) (uid tid : Nat) : Nat :=
  (db.submissions.filter (fun s => s.user_id == uid && s.task_id == tid)).length

/-- Transcribed from the spec invariant, not from the code: the sum of the
rewards of a user's approved submissions, each submission joined to its
task's points. -/
def spec_sum_approved_rewards (db : DBState) (uid : Nat) : Int :=
  ((db.submissions.filter (fun s => s.user_id == uid && s.status == "approved")).map
    (fun s =>
      match db.tasks.find? (fun t => t.id == s.task_id) with
      | some t => t.points
      | none => 0)).sum

/-- Transcribed from the spec invariant, not from the code: the sum of a
user's withdrawal amounts. -/
def spec_sum_withdrawals (db : DBState) (uid : Nat) : Int :=
  ((db.withdrawals.filter (fun w => w.user_id == uid)).map Withdrawal.points).sum

/-- Scenario store: user 7 with 0 points, one task (id 1, reward 200,
capacity 5) and one pending submission (id 1) by user 7 for it. -/
def dbC1 : DBState :=
  { users := [(7, 0)],
    tasks := [{ id := 1, title := "follow", points := 200, max_submissions := 5, archived := 0 }],
    submissions := [{ id := 1, user_id := 7, task_id := 1, proof := "http://p",
                      status := "pending", reviewed_at := none }],
    withdrawals := [], banned := [], next_sub_id := 2, next_wd_id := 1 }

/-- The review row captured for submission 1 of dbC1 while it was pending. -/
def rowC1 : ReviewRow := { sid := 1, user_id := 7, task_id := 1, task_points := 200 }

/-- Store after submission 1 of dbC1 is approved twice (two review panels
opened while it was pending, approve clicked in both). -/
def dbC3post : DBState := approve_cb (approve_cb dbC1 rowC1 5) rowC1 9

/-- Scenario store: one task (id 2, reward 100, capacity 1) with no
submissions, and no users yet. -/
def dbC4 : DBState :=
  { users := [],
    tasks := [{ id := 2, title := "retweet", points := 100, max_submissions := 1, archived := 0 }],
    submissions := [], withdrawals := [], banned := [], next_sub_id := 1, next_wd_id := 1 }

/-- Scenario store: one task (id 3, reward 50, capacity 5) with no
submissions. -/
def dbC5 : DBState :=
  { users := [],
    tasks := [{ id := 3, title := "like", points := 50, max_submissions := 5, archived := 0 }],
    submissions := [], withdrawals := [], banned := [], next_sub_id := 1, next_wd_id := 1 }

/-- Scenario store: user 9 with 1200 points. -/
def dbC7 : DBState :=
  { users := [(9, 1200)], tasks := [], submissions := [], withdrawals := [],
    banned := [], next_sub_id := 1, next_wd_id := 1 }

/-- Scenario store for the missing-user lookup: only user 1 has a row. -/
def dbC10 : DBState :=
  { users := [(1, 50)], tasks := [], submissions := [], withdrawals := [],
    banned := [], next_sub_id := 1, next_wd_id := 1 }

theorem ensure_user_submissions (db : DBState) (uid : Nat) :
    (ensure_user db uid).submissions = db.submissions := by
  unfold ensure_user
  split <;> rfl

theorem ensure_user_next_sub_id (db : DBState) (uid : Nat) :
    (ensure_user db uid).next_sub_id = db.next_sub_id := by
  unfold ensure_user
  split <;> rfl

theorem archiveTask_submissions (db : DBState) (tid : Nat) :
    (archiveTask db tid).submissions = db.submissions := rfl

theorem refresh_archive_submissions (db : DBState) :
    (refresh_archive db).submissions = db.submissions := rfl

theorem countNonRejected_congr (db1 db2 : DBState) (tid : Nat)
    (h : db1.submissions = db2.submissions) :
    countNonRejected db1 tid = countNonRejected db2 tid := by
  unfold countNonRejected
  rw [h]

theorem pairSubmissionCount_congr (db1 db2 : DBState) (uid tid : Nat)
    (h : db1.submissions = db2.submissions) :
    pairSubmissionCount db1 uid tid = pairSubmissionCount db2 uid tid := by
  unfold pairSubmissionCount
  rw [h]

theorem task_cb_record_submissions (db : DBState) (uid tid : Nat) (p : String) :
    (task_cb_record db uid tid p).submissions = db.submissions ++
      [{ id := db.next_sub_id, user_id := uid, task_id := tid,
         proof := p, status := "pending", reviewed_at := none }] := by
  simp only [task_cb_record]
  rw [ensure_user_submissions, ensure_user_next_sub_id]

theorem countNonRejected_record (db : DBState) (uid tid : Nat) (p : String) :
    countNonRejected (task_cb_record db uid tid p) tid = countNonRejected db tid + 1 := by
  unfold countNonRejected
  rw [task_cb_record_submissions, List.filter_append, List.length_append]
  simp [List.filter]

theorem pairSubmissionCount_record (db : DBState) (uid tid : Nat) (p : String) :
    pairSubmissionCount (task_cb_record db uid tid p) uid tid
      = pairSubmissionCount db uid tid + 1 := by
  unfold pairSubmissionCount
  rw [task_cb_record_submissions, List.filter_append, List.length_append]
  simp [List.filter]

theorem task_cb_checks_submissions (db : DBState) (clicks : CooldownMap)
    (ca uid tid : Nat) (ms now : Int) :
    (task_cb_checks db clicks ca uid tid ms now).db.submissions = db.submissions := by
  unfold task_cb_checks
  split
  · rfl
  · split
    · rfl
    · split
      · rfl
      · split
        · exact archiveTask_submissions db tid
        · split <;> rfl

theorem task_cb_checks_proceed_inv (db : DBState) (clicks : CooldownMap)
    (ca uid tid : Nat) (ms now : Int) (db2 : DBState) (clicks2 : CooldownMap) (d : Nat)
    (h : task_cb_checks db clicks ca uid tid ms now = ⟨db2, clicks2, IntakeCheck.proceed d⟩) :
    db2 = db ∧ d = countNonRejected db tid ∧ ((countNonRejected db tid : Int) < ms) ∧
      findSubmission db uid tid = none := by
  unfold task_cb_checks at h
  split at h
  · simp at h
  · split at h
    · simp at h
    · split at h
      · simp at h
      · split at h
        · simp at h
        · split at h
          · simp at h
          · rename_i hflt hfind
            simp only [IntakeAResult.mk.injEq] at h
            obtain ⟨hdb, -, hres⟩ := h
            simp only [IntakeCheck.proceed.injEq] at hres
            refine ⟨hdb.symm, hres.symm, ?_, hfind⟩
            omega

theorem pairCount_zero_of_find_none (db : DBState) (uid tid : Nat)
    (h : findSubmission db uid tid = none) : pairSubmissionCount db uid tid = 0 := by
  unfold findSubmission at h
  unfold pairSubmissionCount
  rw [List.length_eq_zero, List.filter_eq_nil_iff]
  intro a ha
  have h2 := List.find?_eq_none.mp h a ha
  simpa using h2

theorem taskFlowFinish_wrongAuthor (db : DBState) (clicks : CooldownMap) (uid tid : Nat)
    (pr : Option String) :
    taskFlowFinish ⟨db, clicks, IntakeCheck.wrongAuthor⟩ uid tid pr = (db, clicks) := by
  cases pr <;> rfl

theorem taskFlowFinish_bannedUser (db : DBState) (clicks : CooldownMap) (uid tid : Nat)
    (pr : Option String) :
    taskFlowFinish ⟨db, clicks, IntakeCheck.bannedUser⟩ uid tid pr = (db, clicks) := by
  cases pr <;> rfl

theorem taskFlowFinish_onCooldown (db : DBState) (clicks : CooldownMap) (r : Int)
    (uid tid : Nat) (pr : Option String) :
    taskFlowFinish ⟨db, clicks, IntakeCheck.onCooldown r⟩ uid tid pr = (db, clicks) := by
  cases pr <;> rfl

/-- Claim C1: the claim says a repeated approve invocation on an
already-reviewed submission is a no-op denial because status is re-read
immediately before mutating.  The code re-reads status only in the select
callback; approve_cb itself mutates unconditionally with the captured row, so
when two review panels were opened while submission 1 was pending, the second
approve click runs both UPDATEs again and credits the 200-point reward a
second time (balance 400), changing the store. -/
theorem C1_second_approve_credits_again :
    selectForReview dbC1 1 = some rowC1 ∧
    submission_status (approve_cb dbC1 rowC1 5) 1 = some "approved" ∧
    get_user_points (approve_cb dbC1 rowC1 5) 7 = 200 ∧
    get_user_points (approve_cb (approve_cb dbC1 rowC1 5) rowC1 9) 7 = 400 ∧
    approve_cb (approve_cb dbC1 rowC1 5) rowC1 9 ≠ approve_cb dbC1 rowC1 5 := by
  decide

/-- Claim C2: the claim says approve's two mutations commit atomically in one
storage transaction, so a state with the submission approved but the reward
not credited is unreachable.  The code issues the two UPDATEs as independent
autocommitted statements (no transaction), so an execution interrupted after
the first statement (k = 1) durably leaves submission 1 approved while user 7
still has 0 points — exactly the state the claim calls unreachable. -/
theorem C2_interrupted_approve_half_applied :
    approve_cb_committed dbC1 rowC1 5 2 = approve_cb dbC1 rowC1 5 ∧
    submission_status (approve_cb_committed dbC1 rowC1 5 1) 1 = some "approved" ∧
    get_user_points (approve_cb_committed dbC1 rowC1 5 1) 7 = 0 := by
  decide

/-- Claim C3: the claim says every reachable state satisfies
points = sum of approved rewards − sum of withdrawals.  After submission 1 of
dbC1 is approved twice (two panels opened while it was pending — reachable
because approve_cb never re-reads status), user 7 holds 400 points while the
sum of approved submission rewards is 200 and no withdrawals exist, so the
ledger equation fails in a reachable state. -/
theorem C3_ledger_equation_violated :
    get_user_points dbC3post 7 = 400 ∧
    spec_sum_approved_rewards dbC3post 7 = 200 ∧
    spec_sum_withdrawals dbC3post 7 = 0 ∧
    get_user_points dbC3post 7 ≠
      spec_sum_approved_rewards dbC3post 7 - spec_sum_withdrawals dbC3post 7 := by
  decide

/-- Claim C4, counterexample: two intake flows for task 2 of dbC4
(capacity 1), one by user 7 and one by user 8, both run their click-time
checks before either records (each flow suspends for up to 180 s awaiting
proof, so this interleaving is schedulable); both pass with done = 0, and
after both proofs arrive and are recorded the task has 2 non-rejected
submissions against max_submissions = 1, refuting the invariant
count ≤ max_submissions. -/
theorem C4_interleaved_flows_exceed_capacity :
    (task_cb_checks dbC4 emptyClicks 7 7 2 1 0).result = IntakeCheck.proceed 0 ∧
    (task_cb_checks (task_cb_checks dbC4 emptyClicks 7 7 2 1 0).db
        (task_cb_checks dbC4 emptyClicks 7 7 2 1 0).clicks 8 8 2 1 0).result
      = IntakeCheck.proceed 0 ∧
    ((refresh_archive (task_cb_record (refresh_archive (task_cb_record
        (task_cb_checks (task_cb_checks dbC4 emptyClicks 7 7 2 1 0).db
          (task_cb_checks dbC4 emptyClicks 7 7 2 1 0).clicks 8 8 2 1 0).db
        7 2 "http://p1")) 8 2 "http://p2")).tasks.find?
          (fun t => t.id == 2)).map Task.max_submissions = some 1 ∧
    countNonRejected
      (refresh_archive (task_cb_record (refresh_archive (task_cb_record
        (task_cb_checks (task_cb_checks dbC4 emptyClicks 7 7 2 1 0).db
          (task_cb_checks dbC4 emptyClicks 7 7 2 1 0).clicks 8 8 2 1 0).db
        7 2 "http://p1")) 8 2 "http://p2")) 2 = 2 := by
  decide

/-- Claim C4, amended: capacity is only protected against serial flows.  A
single uninterleaved run of task_cb never raises a task's non-rejected count
above the max_submissions captured by its button: the click-time check denies
(and archives) when full, and an admitted flow adds exactly one row below
capacity. -/
theorem C4_serial_flow_respects_capacity (db : DBState) (clicks : CooldownMap)
    (ca uid tid : Nat) (ms now : Int) (pr : Option String)
    (h : (countNonRejected db tid : Int) ≤ ms) :
    (countNonRejected (task_cb_serial db clicks ca uid tid ms now pr).1 tid : Int) ≤ ms := by
  unfold task_cb_serial
  rcases hA : task_cb_checks db clicks ca uid tid ms now with ⟨db2, clicks2, res⟩
  have hsub : db2.submissions = db.submissions := by
    have h2 := task_cb_checks_submissions db clicks ca uid tid ms now
    rw [hA] at h2
    exact h2
  have hcnt : countNonRejected db2 tid = countNonRejected db tid :=
    countNonRejected_congr _ _ _ hsub
  cases res with
  | wrongAuthor => cases pr <;> simp only [taskFlowFinish] <;> rw [hcnt] <;> exact h
  | bannedUser => cases pr <;> simp only [taskFlowFinish] <;> rw [hcnt] <;> exact h
  | onCooldown r => cases pr <;> simp only [taskFlowFinish] <;> rw [hcnt] <;> exact h
  | alreadySubmitted st => cases pr <;> simp only [taskFlowFinish] <;> rw [hcnt] <;> exact h
  | questFull =>
    cases pr <;> simp only [taskFlowFinish] <;>
      rw [countNonRejected_congr _ _ _ (refresh_archive_submissions db2), hcnt] <;> exact h
  | proceed d =>
    obtain ⟨hdb, hd, hlt, hfind⟩ :=
      task_cb_checks_proceed_inv db clicks ca uid tid ms now db2 clicks2 d hA
    cases pr with
    | none => simp only [taskFlowFinish]; rw [hcnt]; exact h
    | some p =>
      simp only [taskFlowFinish]
      rw [countNonRejected_congr _ _ _ (refresh_archive_submissions _),
        countNonRejected_record, hcnt]
      omega

/-- Witness for C4: on dbC4 (task 2, capacity 1, empty) one serial flow keeps
the non-rejected count within capacity. -/
theorem C4_serial_flow_witness :
    ((countNonRejected dbC4 2 : Int) ≤ 1) ∧
    ((countNonRejected (task_cb_serial dbC4 emptyClicks 7 7 2 1 0 (some "http://x")).1 2 : Int)
      ≤ 1) :=
  ⟨by decide,
   C4_serial_flow_respects_capacity dbC4 emptyClicks 7 7 2 1 0 (some "http://x") (by decide)⟩

/-- Claim C5, counterexample: user 7 clicks task 3 of dbC5 at t = 0 and again
at t = 15 (outside the 10 s cooldown) while the first flow is still awaiting
proof; both duplicate checks pass because no row exists yet, and after both
proofs are recorded the pair (7, 3) has two Submission rows, refuting the
claim that no interleaving of submission flows produces two rows for one
pair. -/
theorem C5_interleaved_flows_double_row :
    (task_cb_checks dbC5 emptyClicks 7 7 3 5 0).result = IntakeCheck.proceed 0 ∧
    (task_cb_checks (task_cb_checks dbC5 emptyClicks 7 7 3 5 0).db
        (task_cb_checks dbC5 emptyClicks 7 7 3 5 0).clicks 7 7 3 5 15).result
      = IntakeCheck.proceed 0 ∧
    pairSubmissionCount
      (refresh_archive (task_cb_record (refresh_archive (task_cb_record
        (task_cb_checks (task_cb_checks dbC5 emptyClicks 7 7 3 5 0).db
          (task_cb_checks dbC5 emptyClicks 7 7 3 5 0).clicks 7 7 3 5 15).db
        7 3 "http://a")) 7 3 "http://b")) 7 3 = 2 := by
  decide

/-- Claim C5, amended: the duplicate check protects the pair only against
serial flows.  A single uninterleaved run of task_cb keeps at most one
Submission row per (user, task): the duplicate check denies when a row exists
at check time, and an admitted flow inserts exactly one row when none
existed. -/
theorem C5_serial_flow_at_most_one_row (db : DBState) (clicks : CooldownMap)
    (ca uid tid : Nat) (ms now : Int) (pr : Option String)
    (h : pairSubmissionCount db uid tid ≤ 1) :
    pairSubmissionCount (task_cb_serial db clicks ca uid tid ms now pr).1 uid tid ≤ 1 := by
  unfold task_cb_serial
  rcases hA : task_cb_checks db clicks ca uid tid ms now with ⟨db2, clicks2, res⟩
  have hsub : db2.submissions = db.submissions := by
    have h2 := task_cb_checks_submissions db clicks ca uid tid ms now
    rw [hA] at h2
    exact h2
  have hcnt : pairSubmissionCount db2 uid tid = pairSubmissionCount db uid tid :=
    pairSubmissionCount_congr _ _ _ _ hsub
  cases res with
  | wrongAuthor => cases pr <;> simp only [taskFlowFinish] <;> rw [hcnt] <;> exact h
  | bannedUser => cases pr <;> simp only [taskFlowFinish] <;> rw [hcnt] <;> exact h
  | onCooldown r => cases pr <;> simp only [taskFlowFinish] <;> rw [hcnt] <;> exact h
  | alreadySubmitted st => cases pr <;> simp only [taskFlowFinish] <;> rw [hcnt] <;> exact h
  | questFull =>
    cases pr <;> simp only [taskFlowFinish] <;>
      rw [pairSubmissionCount_congr _ _ _ _ (refresh_archive_submissions db2), hcnt] <;> exact h
  | proceed d =>
    obtain ⟨hdb, hd, hlt, hfind⟩ :=
      task_cb_checks_proceed_inv db clicks ca uid tid ms now db2 clicks2 d hA
    cases pr with
    | none => simp only [taskFlowFinish]; rw [hcnt]; exact h
    | some p =>
      simp only [taskFlowFinish]
      rw [pairSubmissionCount_congr _ _ _ _ (refresh_archive_submissions _),
        pairSubmissionCount_record, hcnt, pairCount_zero_of_find_none db uid tid hfind]

/-- Witness for C5: one serial flow on dbC5 leaves at most one row for the
pair (7, 3). -/
theorem C5_serial_flow_witness :
    pairSubmissionCount dbC5 7 3 ≤ 1 ∧
    pairSubmissionCount (task_cb_serial dbC5 emptyClicks 7 7 3 5 0 (some "http://x")).1 7 3 ≤ 1 :=
  ⟨by decide,
   C5_serial_flow_at_most_one_row dbC5 emptyClicks 7 7 3 5 0 (some "http://x") (by decide)⟩

/-- Claim C6: next_milestones_reached returns exactly the configured
milestones m with old < m ≤ new, and on the spec's two examples returns
[500, 1000, 1500] and [] respectively. -/
theorem C6_milestones_crossed_exact (old_pts new_pts : Int) (ms : List Int) :
    (∀ m, m ∈ next_milestones_reached old_pts new_pts ms ↔
      (m ∈ ms ∧ old_pts < m ∧ m ≤ new_pts)) ∧
    next_milestones_reached 480 1600 [500, 1000, 1500, 2000] = [500, 1000, 1500] ∧
    next_milestones_reached 500 500 [500, 1000, 1500, 2000] = [] := by
  refine ⟨fun m => ?_, by decide, by decide⟩
  simp [next_milestones_reached, List.mem_filter, and_assoc]

/-- Claim C7: withdrawal validation aborts with no state change whenever the
entered amount fails a check — it does not parse as an integer, is not
positive, is below the minimum of 1000, or exceeds the balance read for the
flow — and the run never reaches the committed outcome. -/
theorem C7_invalid_amount_aborts (db : DBState) (uid : Nat) (bank an ac : Option String)
    (am : AmountInput)
    (hbad : am = AmountInput.unparseable ∨
      ∃ p, am = AmountInput.value p ∧ (p ≤ 0 ∨ p < 1000 ∨ p > get_user_points db uid)) :
    (withdraw_cb db uid bank an ac am).1 = db ∧
    ∀ w nb, (withdraw_cb db uid bank an ac am).2 ≠ WdOutcome.committed w nb := by
  rcases hbad with rfl | ⟨p, rfl, hc⟩ <;>
    rcases bank with _ | b <;> rcases an with _ | n <;> rcases ac with _ | c <;>
    refine ⟨?_, fun w nb => ?_⟩ <;>
    simp only [withdraw_cb] <;>
    split_ifs <;>
    simp_all

/-- Witness for C7: user 9 with 1200 points requests 1500; the store is
unchanged, the balance stays 1200 and no Withdrawal row exists. -/
theorem C7_invalid_amount_witness :
    (withdraw_cb dbC7 9 (some "GTB") (some "0123") (some "Ada")
      (AmountInput.value 1500)).1 = dbC7 ∧
    get_user_points dbC7 9 = 1200 ∧ dbC7.withdrawals = [] :=
  ⟨(C7_invalid_amount_aborts dbC7 9 (some "GTB") (some "0123") (some "Ada")
      (AmountInput.value 1500) (Or.inr ⟨1500, rfl, by decide⟩)).1,
   by decide, rfl⟩

/-- Claim C8: a timed-out proof wait in an intake flow that had passed its
checks, and a timeout at any of the four withdrawal collection waits, abort
their flow with the durable store exactly as it was: no submission row, no
debit, no Withdrawal row, no status change. -/
theorem C8_wait_timeout_aborts_without_writes (db : DBState) (clicks : CooldownMap)
    (ca uid tid : Nat) (ms now : Int) (d : Nat) (uid2 : Nat)
    (b an ac : Option String) (am : AmountInput)
    (hpr : (task_cb_checks db clicks ca uid tid ms now).result = IntakeCheck.proceed d)
    (hwd : b = none ∨ an = none ∨ ac = none ∨ am = AmountInput.timeout) :
    (task_cb_serial db clicks ca uid tid ms now none).1 = db ∧
    (withdraw_cb db uid2 b an ac am).1 = db := by
  constructor
  · rcases hA : task_cb_checks db clicks ca uid tid ms now with ⟨db2, clicks2, res⟩
    have hres : res = IntakeCheck.proceed d := by rw [hA] at hpr; exact hpr
    subst hres
    obtain ⟨hdb, -, -, -⟩ :=
      task_cb_checks_proceed_inv db clicks ca uid tid ms now db2 clicks2 d hA
    subst hdb
    unfold task_cb_serial
    rw [hA]
    rfl
  · rcases hwd with rfl | rfl | rfl | rfl
    · simp only [withdraw_cb]
      split_ifs <;> rfl
    · rcases b with _ | b2 <;> simp only [withdraw_cb] <;> split_ifs <;> rfl
    · rcases b with _ | b2 <;> rcases an with _ | an2 <;>
        simp only [withdraw_cb] <;> split_ifs <;> rfl
    · rcases b with _ | b2 <;> rcases an with _ | an2 <;> rcases ac with _ | ac2 <;>
        simp only [withdraw_cb] <;> split_ifs <;> rfl

/-- Witness for C8: on dbC7, an intake flow whose checks passed aborts on
proof timeout with the store unchanged, and a withdrawal whose amount wait
timed out leaves the store unchanged. -/
theorem C8_wait_timeout_witness :
    (task_cb_serial dbC7 emptyClicks 9 9 1 1 0 none).1 = dbC7 ∧
    (withdraw_cb dbC7 9 (some "GTB") (some "0123") (some "Ada") AmountInput.timeout).1 = dbC7 :=
  C8_wait_timeout_aborts_without_writes dbC7 emptyClicks 9 9 1 1 0 0 9
    (some "GTB") (some "0123") (some "Ada") AmountInput.timeout (by decide)
    (Or.inr (Or.inr (Or.inr rfl)))

/-- Claim C9, counterexample: clicks by user 7 on task 1 at t = 0, 5, 11.
The click at t = 5 is denied (5 s into the window of the recorded t = 0) and
therefore records nothing, so the click at t = 11 is compared against t = 0
and passes — although it is only 6 s after the t = 5 click, inside the 10 s
window.  Two clicks separated by less than the window are therefore not
always denied, refuting the claim as universally stated. -/
theorem C9_close_clicks_both_pass :
    (cooldown_gate emptyClicks 7 1 0).1 = GateResult.passed ∧
    (cooldown_gate (cooldown_gate emptyClicks 7 1 0).2 7 1 5).1 = GateResult.denied 5 ∧
    (cooldown_gate (cooldown_gate (cooldown_gate emptyClicks 7 1 0).2 7 1 5).2 7 1 11).1
      = GateResult.passed ∧
    (11 : Int) - 5 < BUTTON_COOLDOWN := by
  decide

/-- Claim C9, amended: any click less than 10 s after a click that passed the
cooldown gate is denied with the remaining time, leaves the cooldown map
untouched, and its whole flow leaves the durable store unchanged (no
submission row).  Since the gate's read and write happen with no suspension
between them, two near-simultaneous clicks can never both pass when the
earlier one passes. -/
theorem C9_cooldown_window_denies (db : DBState) (clicks clicks2 : CooldownMap)
    (ca uid tid : Nat) (ms t1 t2 : Int) (pr : Option String)
    (hpass : cooldown_gate clicks uid tid t1 = (GateResult.passed, clicks2))
    (hlt : t2 - t1 < BUTTON_COOLDOWN) :
    cooldown_gate clicks2 uid tid t2
      = (GateResult.denied (BUTTON_COOLDOWN - (t2 - t1)), clicks2) ∧
    (task_cb_serial db clicks2 ca uid tid ms t2 pr).1 = db := by
  have hclicks2 : clicks2 = setClick clicks (uid, tid) t1 := by
    unfold cooldown_gate at hpass
    rcases hl : clicks (uid, tid) with _ | last
    · simp only [hl] at hpass
      injection hpass with h1 h2
      exact h2.symm
    · simp only [hl] at hpass
      split at hpass
      · injection hpass with h1 h2
        exact GateResult.noConfusion h1
      · injection hpass with h1 h2
        exact h2.symm
  have hlook : clicks2 (uid, tid) = some t1 := by
    rw [hclicks2]
    simp [setClick]
  have hdeny : cooldown_gate clicks2 uid tid t2
      = (GateResult.denied (BUTTON_COOLDOWN - (t2 - t1)), clicks2) := by
    unfold cooldown_gate
    simp only [hlook]
    rw [if_pos hlt]
  refine ⟨hdeny, ?_⟩
  unfold task_cb_serial task_cb_checks
  rw [hdeny]
  split
  · rw [taskFlowFinish_wrongAuthor]
  · split
    · rw [taskFlowFinish_bannedUser]
    · rw [taskFlowFinish_onCooldown]

/-- Witness for C9: after a passing click at t = 0, the click at t = 2 is
denied with 8 s remaining and its flow changes nothing in the store. -/
theorem C9_cooldown_window_witness :
    cooldown_gate (setClick emptyClicks (7, 1) 0) 7 1 2
      = (GateResult.denied (BUTTON_COOLDOWN - (2 - 0)), setClick emptyClicks (7, 1) 0) ∧
    (task_cb_serial dbC4 (setClick emptyClicks (7, 1) 0) 7 7 1 1 2 (some "http://x")).1 = dbC4 :=
  C9_cooldown_window_denies dbC4 emptyClicks (setClick emptyClicks (7, 1) 0) 7 7 1 1 0 2
    (some "http://x") rfl (by decide)

/-- Claim C10: for a user id with no row in the users table, get_user_points
returns 0 instead of failing, so balance-dependent checks are well-defined
before the lazy row creation. -/
theorem C10_missing_user_points_zero (db : DBState) (uid : Nat)
    (h : ∀ p ∈ db.users, p.1 ≠ uid) :
    get_user_points db uid = 0 := by
  unfold get_user_points
  have hnone : db.users.find? (fun p => p.1 == uid) = none := by
    rw [List.find?_eq_none]
    intro x hx
    simpa using h x hx
  rw [hnone]

/-- Witness for C10: user 2 has no row in dbC10 and the lookup returns 0. -/
theorem C10_missing_user_witness : get_user_points dbC10 2 = 0 :=
  C10_missing_user_points_zero dbC10 2 (by decide)

end QuestBot
